import Mathlib

/-!
Reporting-Record-Video: the report generator of `main.go`.

A shallow embedding of `getRecordingFiles`, `getVideoDuration` and
`GenerateReport`, together with the parts of Go's `time` package that the
program calls (`time.Parse` for its two layouts, `time.Date`, `Time.Format`).

Conventions of the embedding

* A Go `string` is a list of characters (`Str`).
* A Go `int` is an `Int` kept inside the 64-bit two's complement range by
  `wrapInt` at every arithmetic operation of the program.
* `log.Fatal` is the `Except.error` branch: the run ends and no report exists.
* The file system and the external `ffprobe` process are the environment `Env`.
* `float64` percentages are computed over `ℚ` (no rounding).
* `time.Date` is computed over unbounded integers; it agrees with Go whenever
  the resulting instant is representable by Go's `time.Time`.
-/

namespace RecordVideo

/-- A Go string, as the list of its characters. -/
abbrev Str := List Char

/-- Reduction of an integer into the range of Go's 64-bit `int`
(two's complement wrap-around). -/
def wrapInt (x : Int) : Int := (x + 2 ^ 63) % 2 ^ 64 - 2 ^ 63

/-! Go's `time` package, as far as `main.go` uses it -/

/-- A `time.Time` in UTC, by its civil fields. The nanosecond part is left out:
none of the layouts of the program prints it and `GenerateReport` passes 0. -/
structure Time where
  year : Int
  month : Int
  day : Int
  hour : Int
  minute : Int
  second : Int
deriving DecidableEq, Repr

/-- The zero `time.Time`: January 1, year 1, 00:00:00 UTC. -/
def zeroTime : Time := ⟨1, 1, 1, 0, 0, 0⟩

/-- Leap year test `isLeap` of package `time`. -/
def isLeap (year : Int) : Bool :=
  year % 4 = 0 && (year % 100 ≠ 0 || year % 400 = 0)

/-- Table `daysBefore` of package `time`: days of a non-leap year before month `m+1`. -/
def daysBefore (m : Nat) : Int :=
  [0, 31, 59, 90, 120, 151, 181, 212, 243, 273, 304, 334, 365].getD m 0

/-- Number of days of a month, `daysIn` of package `time`. -/
def daysIn (m : Int) (year : Int) : Int :=
  if m = 2 ∧ isLeap year then 29
  else daysBefore m.toNat - daysBefore (m.toNat - 1)

/-- Test `isDigit` of package `time` on one byte. -/
def isDigit (c : Char) : Bool := 48 ≤ c.toNat && c.toNat ≤ 57

/-- Value of a decimal digit, `int(c - '0')`. -/
def digitVal (c : Char) : Int := (c.toNat - 48 : Nat)

/-- Function `getnum` of package `time`: one or two leading digits; with `fixed`
exactly two are required. -/
def getnum (s : Str) (fixed : Bool) : Option (Int × Str) :=
  match s with
  | [] => none
  | [c0] =>
    if !isDigit c0 then none
    else if fixed then none
    else some (digitVal c0, [])
  | c0 :: c1 :: rest =>
    if !isDigit c0 then none
    else if !isDigit c1 then
      if fixed then none else some (digitVal c0, c1 :: rest)
    else some (digitVal c0 * 10 + digitVal c1, rest)

/-- The `stdLongYear` case of `time.Parse`: exactly four digits. -/
def getLongYear (s : Str) : Option (Int × Str) :=
  match s with
  | a :: b :: c :: d :: rest =>
    if isDigit a && isDigit b && isDigit c && isDigit d then
      some (((digitVal a * 10 + digitVal b) * 10 + digitVal c) * 10 + digitVal d, rest)
    else none
  | _ => none

/-- Function `cutspace` of package `time`. -/
def cutspace (s : Str) : Str := s.dropWhile (fun c => c = ' ')

/-- Function `skip` of package `time` for a one-character literal of the layout:
a space of the layout matches any run of spaces, any other character matches
itself. -/
def skip (value : Str) (c : Char) : Option Str :=
  if c = ' ' then
    match value with
    | [] => some []
    | v :: _ => if v ≠ ' ' then none else some (cutspace value)
  else
    match value with
    | [] => none
    | v :: rest => if v = c then some rest else none

/-- The special case after the seconds field in `time.Parse`: a fractional
second in the input that the layout does not mention is read and dropped. -/
def skipFraction (value : Str) : Str :=
  match value with
  | c :: d :: rest =>
    if (c = '.' || c = ',') && isDigit d then rest.dropWhile isDigit else value
  | _ => value

/-- Function `time.Parse` for the layouts `2006-01-02 15-04-05` (`sep` a space)
and `2006-01-02T15-04-05` (`sep` the letter T). `none` is a parse error. -/
def parseTime (sep : Char) (value : Str) : Option Time :=
  match getLongYear value with
  | none => none
  | some (year, value) =>
  match skip value '-' with
  | none => none
  | some value =>
  match getnum value true with
  | none => none
  | some (month, value) =>
  if month ≤ 0 ∨ 12 < month then none else
  match skip value '-' with
  | none => none
  | some value =>
  match getnum value true with
  | none => none
  | some (day, value) =>
  match skip value sep with
  | none => none
  | some value =>
  match getnum value false with
  | none => none
  | some (hour, value) =>
  if hour < 0 ∨ 24 ≤ hour then none else
  match skip value '-' with
  | none => none
  | some value =>
  match getnum value true with
  | none => none
  | some (minute, value) =>
  if minute < 0 ∨ 60 ≤ minute then none else
  match skip value '-' with
  | none => none
  | some value =>
  match getnum value true with
  | none => none
  | some (second, value) =>
  if second < 0 ∨ 60 ≤ second then none else
  if skipFraction value ≠ [] then none else
  if day < 1 ∨ day > daysIn month year then none else
  some ⟨year, month, day, hour, minute, second⟩

/-- Character of a decimal digit. -/
def digitChar (n : Nat) : Char := Char.ofNat (48 + n)

/-- Function `appendInt` of package `time`: decimal form, zero padded to `width`,
with the two fast paths of the source for 2 and 4 digit fields. -/
def appendInt (x : Int) (width : Nat) : Str :=
  let u := x.natAbs
  let sign : Str := if x < 0 then ['-'] else []
  if width = 2 ∧ u < 100 then
    sign ++ [digitChar (u / 10), digitChar (u % 10)]
  else if width = 4 ∧ u < 10000 then
    sign ++ [digitChar (u / 1000), digitChar (u / 100 % 10),
             digitChar (u / 10 % 10), digitChar (u % 10)]
  else
    let ds := Nat.toDigits 10 u
    sign ++ List.replicate (width - ds.length) '0' ++ ds

/-- Rendering `Format("2006-01-02")`. -/
def formatDate (t : Time) : Str :=
  appendInt t.year 4 ++ '-' :: appendInt t.month 2 ++ '-' :: appendInt t.day 2

/-- Rendering `Format(layoutTime)` with `layoutTime = "2006-01-02 15-04-05"`. -/
def formatLayoutTime (t : Time) : Str :=
  formatDate t ++ ' ' :: appendInt t.hour 2 ++ '-' :: appendInt t.minute 2
    ++ '-' :: appendInt t.second 2

/-- Function `norm` of package `time`: brings `lo` into `[0, base)` and carries
into `hi`. -/
def norm (hi lo base : Int) : Int × Int :=
  let p : Int × Int :=
    if lo < 0 then
      let n := (-lo - 1) / base + 1
      (hi - n, lo + n * base)
    else (hi, lo)
  if p.2 ≥ base then
    let n := p.2 / base
    (p.1 + n, p.2 - n * base)
  else p

/-- Days from January 1 of year 1 to January 1 of `year`. -/
def daysBeforeYear (year : Int) : Int :=
  let y := year - 1
  365 * y + y / 4 - y / 100 + y / 400

/-- Civil date of a day number counted from January 1 of year 1, after
`absDate` of package `time`: 400, 100, 4 and 1 year cycles, then the month. -/
def absDate (d : Int) : Int × Int × Int :=
  let n400 := d / 146097
  let d1 := d - 146097 * n400
  let n100 := d1 / 36524
  let n100 := n100 - n100 / 4
  let d2 := d1 - 36524 * n100
  let n4 := d2 / 1461
  let d3 := d2 - 1461 * n4
  let n1 := d3 / 365
  let n1 := n1 - n1 / 4
  let yday := d3 - 365 * n1
  let year := 400 * n400 + 100 * n100 + 4 * n4 + n1 + 1
  if isLeap year ∧ yday = 59 then (year, 2, 29)
  else
    let day := if isLeap year ∧ yday > 59 then yday - 1 else yday
    let month := day / 31
    let stop := daysBefore (month.toNat + 1)
    if day ≥ stop then (year, month + 2, day - stop + 1)
    else (year, month + 1, day - daysBefore month.toNat + 1)

/-- Function `time.Date` in UTC with nanoseconds 0: out-of-range months,
seconds, minutes and hours carry into the next larger field. -/
def Date (year month day hour minute second : Int) : Time :=
  let ym := norm year (month - 1) 12
  let year := ym.1
  let month := ym.2 + 1
  let ms := norm minute second 60
  let hm := norm hour ms.1 60
  let dh := norm day hm.1 24
  let d := daysBeforeYear year + daysBefore (month - 1).toNat
    + (if isLeap year ∧ month ≥ 3 then 1 else 0) + (dh.1 - 1)
  let ymd := absDate d
  ⟨ymd.1, ymd.2.1, ymd.2.2, dh.2, hm.2, ms.2⟩

/-- Function `strings.Contains`. -/
def strContains : Str → Str → Bool
  | [], sub => sub.isEmpty
  | c :: s, sub => sub.isPrefixOf (c :: s) || strContains s sub

/-- Function `strings.HasSuffix`. -/
def strHasSuffix (s suffix : Str) : Bool := suffix.isSuffixOf s

/-- First element of `strings.Split(s, ".")`: the text before the first period. -/
def splitFirst (s : Str) : Str := s.takeWhile (fun c => c ≠ '.')

/-! The data model of `main.go` -/

/-- Struct `TimeError`. -/
structure TimeError where
  endTime : Str
  startTime : Str
deriving DecidableEq, Repr

/-- Struct `ErrorDetail`. -/
structure ErrorDetail where
  duration : Int
  filename : Str
  timeError : TimeError
deriving DecidableEq, Repr

/-- Struct `RecordingFile`. -/
structure RecordingFile where
  duration : Int
  filename : Str
deriving DecidableEq, Repr

/-- Struct `Result`; the two `float64` percentages are rationals. -/
structure Result where
  errorPercentage : ℚ
  errorTime : Int
  recordPercentage : ℚ
  recordTime : Int
  totalError : Int
  totalRecording : Int
  totalTime : Int
  error : List ErrorDetail
  recordingFile : List RecordingFile

/-- Struct `RecordReport`. -/
structure RecordReport where
  startTime : Str
  endTime : Str
  result : Result

/-! The environment: directory listing and `ffprobe` -/

/-- One run of `ffprobe` as `getVideoDuration` sees it. -/
structure ProbeRun where
  /-- Whether `cmd.CombinedOutput()` returned a nil error. -/
  execOk : Bool
  /-- The text `strings.TrimSpace(string(output))`. -/
  trimmed : Str
  /-- The value of `int(FloatDuration)` for the float that
  `strconv.ParseFloat(durationStr, 64)` returns; `none` when it returns an error. -/
  parsed : Option Int

/-- What the program reads from outside. -/
structure Env where
  /-- The result of `os.ReadDir(dir)`: the entry names in listing order, `none`
  on error. -/
  readDir : Str → Option (List Str)
  /-- The `ffprobe` run on a path. -/
  probe : Str → ProbeRun

/-- The reasons for which the program calls `log.Fatal`. -/
inductive Fatal where
  | readDir
  | probe
  | parseName
deriving DecidableEq, Repr

/-! The functions of `main.go` -/

/-- Function `getRecordingFiles` (lines 80-96). The error of `time.Parse` is
discarded there, so an unparsable start date leaves the zero time. -/
def getRecordingFiles (env : Env) (st _et : Str) (dir : Str) : Except Fatal (List Str) :=
  let startTime := (parseTime ' ' st).getD zeroTime
  let dateString := formatDate startTime
  match env.readDir dir with
  | none => .error .readDir
  | some files =>
    .ok (files.filter (fun name =>
      strContains name dateString && strHasSuffix name ".mp4".toList))

/-- Function `getVideoDuration` (lines 98-116), on the outcome of the `ffprobe`
run. -/
def getVideoDuration (run : ProbeRun) : Except Fatal Int :=
  if !run.execOk then .error .probe
  else if run.trimmed ≠ [] then
    match run.parsed with
    | none => .error .probe
    | some d => .ok (wrapInt d)
  else .ok 0

/-- The path `fmt.Sprintf("%s/%s", dir, filename)`. -/
def fileLoc (dir filename : Str) : Str := dir ++ '/' :: filename

/-- The variables that the loop of `GenerateReport` updates. -/
structure LoopState where
  errorTime : Int
  errorDetails : List ErrorDetail
  recordingFiles : List RecordingFile

/-- One iteration of the loop of `GenerateReport` (lines 131-160). -/
def loopBody (env : Env) (dir : Str) (s : LoopState) (filename : Str) :
    Except Fatal LoopState :=
  match getVideoDuration (env.probe (fileLoc dir filename)) with
  | .error e => .error e
  | .ok duration =>
    if duration < 300 then
      match parseTime 'T' (splitFirst filename) with
      | none => .error .parseName
      | some startTime =>
        let endTime := Date startTime.year startTime.month startTime.day
          startTime.hour startTime.minute duration
        .ok { errorTime := wrapInt (s.errorTime + duration)
              errorDetails := s.errorDetails ++ [{
                duration := duration
                filename := filename
                timeError := {
                  endTime := formatLayoutTime endTime
                  startTime := formatLayoutTime startTime } }]
              recordingFiles := s.recordingFiles ++
                [{ duration := duration, filename := filename }] }
    else
      .ok { s with recordingFiles := s.recordingFiles ++
              [{ duration := duration, filename := filename }] }

/-- The loop of `GenerateReport` over the selected files (lines 130-161). -/
def loopFiles (env : Env) (dir : Str) : List Str → LoopState → Except Fatal LoopState
  | [], s => .ok s
  | filename :: rest, s =>
    match loopBody env dir s filename with
    | .error e => .error e
    | .ok s1 => loopFiles env dir rest s1

/-- Function `GenerateReport` (lines 118-186). -/
def GenerateReport (env : Env) (startDate endDate : Str) (dir : Str) :
    Except Fatal RecordReport :=
  match getRecordingFiles env startDate endDate dir with
  | .error e => .error e
  | .ok files =>
    let totalRecord : Int := files.length
    let totalTime : Int := 24 * 60 * 60
    match loopFiles env dir files ⟨0, [], []⟩ with
    | .error e => .error e
    | .ok s =>
      let recordTime := wrapInt (totalTime - s.errorTime)
      let errorTime := wrapInt (totalTime - recordTime)
      let totalError : Int := s.errorDetails.length
      let errorPercentage : ℚ := (errorTime : ℚ) / (totalTime : ℚ) * 100
      let recordPercentage : ℚ := (recordTime : ℚ) / (totalTime : ℚ) * 100
      .ok { startTime := startDate
            endTime := endDate
            result := {
              errorPercentage := errorPercentage
              errorTime := errorTime
              recordPercentage := recordPercentage
              totalError := totalError
              recordTime := recordTime
              totalRecording := totalRecord
              totalTime := totalTime
              error := s.errorDetails
              recordingFile := s.recordingFiles } }

/-! Vocabulary for the statements -/

/-- The duration that `getVideoDuration` measures for a file of the directory
(0 when the probe fails, in which case no report exists anyway). -/
def durationOf (env : Env) (dir : Str) (f : Str) : Int :=
  match getVideoDuration (env.probe (fileLoc dir f)) with
  | .ok d => d
  | .error _ => 0

/-- The `ErrorDetail` that lines 138-154 build for a file. -/
def detailOf (env : Env) (dir : Str) (f : Str) : ErrorDetail :=
  let d := durationOf env dir f
  let t := (parseTime 'T' (splitFirst f)).getD zeroTime
  { duration := d
    filename := f
    timeError := {
      endTime := formatLayoutTime (Date t.year t.month t.day t.hour t.minute d)
      startTime := formatLayoutTime t } }

/-- The selected files whose measured duration is below 300 seconds. -/
def errorFiles (env : Env) (dir : Str) (files : List Str) : List Str :=
  files.filter (fun f => durationOf env dir f < 300)

/-- The exact sum of the durations of the error files. -/
def errorSum (env : Env) (dir : Str) (files : List Str) : Int :=
  ((errorFiles env dir files).map (durationOf env dir)).sum

/-- A civil time that `layoutTime` renders as `YYYY-MM-DD HH-MM-SS`. -/
def Time.valid (t : Time) : Prop :=
  0 ≤ t.year ∧ t.year ≤ 9999 ∧ 1 ≤ t.month ∧ t.month ≤ 12 ∧
  1 ≤ t.day ∧ t.day ≤ daysIn t.month t.year ∧
  0 ≤ t.hour ∧ t.hour < 24 ∧ 0 ≤ t.minute ∧ t.minute < 60 ∧
  0 ≤ t.second ∧ t.second < 60

instance (t : Time) : Decidable t.valid := by
  unfold Time.valid
  infer_instance

/-- The selection test of `getRecordingFiles` in list terms: the name has the
date as a contiguous part and ends with `.mp4`. -/
def selects (date : Str) (name : Str) : Bool :=
  decide (date <:+: name) && decide (".mp4".toList <:+ name)

/-! Concrete runs -/

/-- First start date of `main`. -/
def mainStart : Str := "2024-01-09 00-00-00".toList

/-- First end date of `main`. -/
def mainStop : Str := "2024-01-10 00-00-00".toList

/-- The constant `directory`. -/
def mainDir : Str := "record".toList

/-- The recording of the scenario. -/
def scenarioName : Str := "2024-01-09T10-00-00.001.mp4".toList

/-- A second recording of the same day. -/
def otherName : Str := "2024-01-09T11-00-00.001.mp4".toList

/-- A recording that starts 30 seconds into its minute. -/
def secondsName : Str := "2024-01-09T10-00-30.001.mp4".toList

/-- The error entry that the scenario expects for its recording. -/
def scenarioDetail : ErrorDetail :=
  { duration := 120
    filename := scenarioName
    timeError := {
      endTime := "2024-01-09 10-02-00".toList
      startTime := "2024-01-09 10-00-00".toList } }

/-- The directory holds the scenario recording alone, probed at 120 seconds. -/
def scenarioEnv : Env where
  readDir := fun _ => some [scenarioName]
  probe := fun _ => ⟨true, "120.000000".toList, some 120⟩

/-- The scenario recording, for which the probe prints -9223372036854774784
(that is 1024 - 2^63, a value that `float64` and `int` both hold exactly). -/
def overflowEnv : Env where
  readDir := fun _ => some [scenarioName]
  probe := fun _ => ⟨true, "-9223372036854774784".toList, some (-9223372036854774784)⟩

/-- Two recordings with the probed durations -2^62 and -2^62 - 1024. -/
def wrapSumEnv : Env where
  readDir := fun _ => some [scenarioName, otherName]
  probe := fun path =>
    if path = fileLoc mainDir scenarioName then
      ⟨true, "-4611686018427387904".toList, some (-4611686018427387904)⟩
    else ⟨true, "-4611686018427388928".toList, some (-4611686018427388928)⟩

/-- The scenario recording next to one with the probed duration -500. -/
def negativeEnv : Env where
  readDir := fun _ => some [scenarioName, otherName]
  probe := fun path =>
    if path = fileLoc mainDir scenarioName then ⟨true, "120.000000".toList, some 120⟩
    else ⟨true, "-500.000000".toList, some (-500)⟩

/-- The directory holds one recording that starts at 10:00:30, probed at 120 seconds. -/
def secondsEnv : Env where
  readDir := fun _ => some [secondsName]
  probe := fun _ => ⟨true, "120.000000".toList, some 120⟩

/-- A directory without any recording of January 9. -/
def emptyEnv : Env where
  readDir := fun _ => some ["notes.txt".toList, "2024-01-08T10-00-00.001.mp4".toList]
  probe := fun _ => ⟨true, "600.000000".toList, some 600⟩

/-- A directory with a text file, a recording of the day before, the scenario
recording and a file of the day that is no `.mp4`; every probe gives 120 seconds. -/
def mixedEnv : Env where
  readDir := fun _ => some ["notes.txt".toList, "2024-01-08T10-00-00.001.mp4".toList,
    scenarioName, "2024-01-09T12-00-00.001.avi".toList]
  probe := fun _ => ⟨true, "120.000000".toList, some 120⟩

/-- The scenario recording, for which the probe prints N/A. -/
def unprobedEnv : Env where
  readDir := fun _ => some [scenarioName]
  probe := fun _ => ⟨true, "N/A".toList, none⟩

/-! Lemmas -/

/-- The wrapped value is not below the least `int`. -/
theorem wrapInt_lower (x : Int) : -2 ^ 63 ≤ wrapInt x := by
  unfold wrapInt; omega

/-- The wrapped value is below 2^63. -/
theorem wrapInt_upper (x : Int) : wrapInt x < 2 ^ 63 := by
  unfold wrapInt; omega

/-- Wrapping leaves a value of the `int` range unchanged. -/
theorem wrapInt_of_range (x : Int) (h1 : -2 ^ 63 ≤ x) (h2 : x < 2 ^ 63) : wrapInt x = x := by
  unfold wrapInt; omega

/-- Wrapping twice along an addition is wrapping once. -/
theorem wrapInt_add_left (a b : Int) : wrapInt (wrapInt a + b) = wrapInt (a + b) := by
  unfold wrapInt; omega

/-- Wrapping twice along a subtraction is wrapping once. -/
theorem wrapInt_sub_right (a b : Int) : wrapInt (a - wrapInt b) = wrapInt (a - b) := by
  unfold wrapInt; omega

/-- Effect of one successful iteration of the loop. -/
theorem loopBody_ok (env : Env) (dir : Str) (s s1 : LoopState) (f : Str)
    (h : loopBody env dir s f = .ok s1) :
    getVideoDuration (env.probe (fileLoc dir f)) = .ok (durationOf env dir f) ∧
    s1.recordingFiles = s.recordingFiles ++ [⟨durationOf env dir f, f⟩] ∧
    (durationOf env dir f < 300 →
      (∃ t, parseTime 'T' (splitFirst f) = some t) ∧
      s1.errorDetails = s.errorDetails ++ [detailOf env dir f] ∧
      s1.errorTime = wrapInt (s.errorTime + durationOf env dir f)) ∧
    (¬ durationOf env dir f < 300 →
      s1.errorDetails = s.errorDetails ∧ s1.errorTime = s.errorTime) := by
  unfold loopBody at h
  cases hd : getVideoDuration (env.probe (fileLoc dir f)) with
  | error e => rw [hd] at h; cases h
  | ok d =>
    have hdur : durationOf env dir f = d := by simp [durationOf, hd]
    rw [hd] at h
    simp only at h
    by_cases hlt : d < 300
    · rw [if_pos hlt] at h
      cases hp : parseTime 'T' (splitFirst f) with
      | none => rw [hp] at h; cases h
      | some t =>
        rw [hp] at h
        simp only [Except.ok.injEq] at h
        subst h
        refine ⟨by rw [hdur], by simp [hdur], fun _ => ⟨⟨t, rfl⟩, ?_, by simp [hdur]⟩, fun hn => ?_⟩
        · simp [detailOf, hdur, hp]
        · exact absurd (hdur ▸ hlt) hn
    · rw [if_neg hlt] at h
      simp only [Except.ok.injEq] at h
      subst h
      refine ⟨by rw [hdur], by simp [hdur], fun hl => ?_, fun _ => ⟨rfl, rfl⟩⟩
      exact absurd (hdur ▸ hl) hlt

/-- Unfolding of `errorFiles` on a non-empty list. -/
theorem errorFiles_cons (env : Env) (dir : Str) (f : Str) (files : List Str) :
    errorFiles env dir (f :: files) =
      if durationOf env dir f < 300 then f :: errorFiles env dir files
      else errorFiles env dir files := by
  unfold errorFiles
  by_cases h : durationOf env dir f < 300 <;> simp [List.filter_cons, h]

/-- Effect of a successful run of the loop: every file was probed, every error file had a parsable name, and the three variables have grown as stated. -/
theorem loopFiles_ok (env : Env) (dir : Str) (files : List Str) :
    ∀ (s s1 : LoopState), loopFiles env dir files s = .ok s1 →
    (∀ f ∈ files, getVideoDuration (env.probe (fileLoc dir f)) = .ok (durationOf env dir f)) ∧
    (∀ f ∈ files, durationOf env dir f < 300 → ∃ t, parseTime 'T' (splitFirst f) = some t) ∧
    s1.recordingFiles = s.recordingFiles ++
      files.map (fun f => (⟨durationOf env dir f, f⟩ : RecordingFile)) ∧
    s1.errorDetails = s.errorDetails ++ (errorFiles env dir files).map (detailOf env dir) ∧
    wrapInt s1.errorTime = wrapInt (s.errorTime + errorSum env dir files) ∧
    ((-2 ^ 63 ≤ s.errorTime ∧ s.errorTime < 2 ^ 63) →
      (-2 ^ 63 ≤ s1.errorTime ∧ s1.errorTime < 2 ^ 63)) := by
  induction files with
  | nil =>
    intro s s1 h
    simp only [loopFiles, Except.ok.injEq] at h
    subst h
    simp [errorFiles, errorSum]
  | cons f rest ih =>
    intro s s1 h
    simp only [loopFiles] at h
    cases hb : loopBody env dir s f with
    | error e => rw [hb] at h; cases h
    | ok s2 =>
      rw [hb] at h
      simp only at h
      obtain ⟨hprobe, hrec, herr, hgood⟩ := loopBody_ok env dir s s2 f hb
      obtain ⟨ih1, ih2, ih3, ih4, ih5, ih6⟩ := ih s2 s1 h
      by_cases hlt : durationOf env dir f < 300
      · obtain ⟨hparse, hdet, htime⟩ := herr hlt
        refine ⟨?_, ?_, ?_, ?_, ?_, ?_⟩
        · intro g hg
          rcases List.mem_cons.mp hg with rfl | hg
          · exact hprobe
          · exact ih1 g hg
        · intro g hg hgl
          rcases List.mem_cons.mp hg with rfl | hg
          · exact hparse
          · exact ih2 g hg hgl
        · rw [ih3, hrec]; simp
        · rw [ih4, hdet, errorFiles_cons, if_pos hlt]; simp
        · rw [ih5, htime, wrapInt_add_left]
          congr 1
          simp only [errorSum, errorFiles_cons, if_pos hlt, List.map_cons, List.sum_cons]
          ring
        · intro _
          apply ih6
          rw [htime]
          exact ⟨wrapInt_lower _, wrapInt_upper _⟩
      · obtain ⟨hdet, htime⟩ := hgood hlt
        refine ⟨?_, ?_, ?_, ?_, ?_, ?_⟩
        · intro g hg
          rcases List.mem_cons.mp hg with rfl | hg
          · exact hprobe
          · exact ih1 g hg
        · intro g hg hgl
          rcases List.mem_cons.mp hg with rfl | hg
          · exact absurd hgl hlt
          · exact ih2 g hg hgl
        · rw [ih3, hrec]; simp
        · rw [ih4, hdet, errorFiles_cons, if_neg hlt]
        · rw [ih5, htime]
          simp only [errorSum, errorFiles_cons, if_neg hlt]
        · intro hr
          apply ih6
          rw [htime]
          exact hr

/-- The loop succeeds when every probe succeeds and every error file has a parsable name. -/
theorem loopFiles_succeeds (env : Env) (dir : Str) (files : List Str)
    (hprobe : ∀ f ∈ files, ∃ d, getVideoDuration (env.probe (fileLoc dir f)) = .ok d)
    (hparse : ∀ f ∈ files, durationOf env dir f < 300 →
      ∃ t, parseTime 'T' (splitFirst f) = some t) :
    ∀ s : LoopState, ∃ s1, loopFiles env dir files s = .ok s1 := by
  induction files with
  | nil => intro s; exact ⟨s, rfl⟩
  | cons f rest ih =>
    intro s
    have ih1 := ih (fun g hg => hprobe g (List.mem_cons_of_mem _ hg))
      (fun g hg => hparse g (List.mem_cons_of_mem _ hg))
    obtain ⟨d, hd⟩ := hprobe f (List.mem_cons_self _ _)
    have hdur : durationOf env dir f = d := by simp [durationOf, hd]
    have hb : ∃ s2, loopBody env dir s f = .ok s2 := by
      unfold loopBody
      rw [hd]
      simp only
      by_cases hlt : d < 300
      · obtain ⟨t, ht⟩ := hparse f (List.mem_cons_self _ _) (hdur ▸ hlt)
        rw [if_pos hlt, ht]
        exact ⟨_, rfl⟩
      · rw [if_neg hlt]
        exact ⟨_, rfl⟩
    obtain ⟨s2, hs2⟩ := hb
    obtain ⟨s1, hs1⟩ := ih1 s2
    exact ⟨s1, by simp only [loopFiles, hs2, hs1]⟩

/-- Shape of every report that `GenerateReport` returns, in terms of the final loop state. -/
theorem GenerateReport_ok (env : Env) (st et dir : Str) (r : RecordReport)
    (h : GenerateReport env st et dir = .ok r) :
    ∃ files s, getRecordingFiles env st et dir = .ok files ∧
      loopFiles env dir files ⟨0, [], []⟩ = .ok s ∧
      r.result.totalTime = 86400 ∧
      r.result.recordTime = wrapInt (86400 - s.errorTime) ∧
      r.result.errorTime = wrapInt (86400 - wrapInt (86400 - s.errorTime)) ∧
      r.result.error = s.errorDetails ∧
      r.result.recordingFile = s.recordingFiles ∧
      r.result.totalRecording = files.length ∧
      r.result.totalError = s.errorDetails.length ∧
      r.result.errorPercentage = (r.result.errorTime : ℚ) / (r.result.totalTime : ℚ) * 100 ∧
      r.result.recordPercentage = (r.result.recordTime : ℚ) / (r.result.totalTime : ℚ) * 100 ∧
      r.startTime = st ∧ r.endTime = et := by
  unfold GenerateReport at h
  cases hf : getRecordingFiles env st et dir with
  | error e => rw [hf] at h; cases h
  | ok files =>
    rw [hf] at h
    simp only at h
    cases hl : loopFiles env dir files ⟨0, [], []⟩ with
    | error e => rw [hl] at h; cases h
    | ok s =>
      rw [hl] at h
      simp only [Except.ok.injEq] at h
      subst h
      refine ⟨files, s, rfl, hl, ?_⟩
      norm_num

/-- Digit characters pass `isDigit`. -/
theorem isDigit_digitChar (k : Nat) (h : k < 10) : isDigit (digitChar k) = true := by
  interval_cases k <;> rfl

/-- Reading a digit character gives the digit back. -/
theorem digitVal_digitChar (k : Nat) (h : k < 10) : digitVal (digitChar k) = k := by
  interval_cases k <;> rfl

/-- A digit character is not a space. -/
theorem digitChar_ne_space (k : Nat) (h : k < 10) : digitChar k ≠ ' ' := by
  interval_cases k <;> decide

/-- Two-digit rendering of a number below 100. -/
theorem appendInt_two (n : Nat) (h : n < 100) :
    appendInt (n : Int) 2 = [digitChar (n / 10), digitChar (n % 10)] := by
  have h0 : ¬ ((n : Int) < 0) := by omega
  simp [appendInt, h, h0]

/-- Four-digit rendering of a number below 10000. -/
theorem appendInt_four (n : Nat) (h : n < 10000) :
    appendInt (n : Int) 4 = [digitChar (n / 1000), digitChar (n / 100 % 10),
      digitChar (n / 10 % 10), digitChar (n % 10)] := by
  have h0 : ¬ ((n : Int) < 0) := by omega
  simp [appendInt, h, h0]

/-- Reading two digit characters with `getnum`. -/
theorem getnum_two (a b : Nat) (ha : a < 10) (hb : b < 10) (rest : Str) (fixed : Bool) :
    getnum (digitChar a :: digitChar b :: rest) fixed = some ((a : Int) * 10 + b, rest) := by
  simp [getnum, isDigit_digitChar, digitVal_digitChar, ha, hb]

/-- Reading four digit characters with `getLongYear`. -/
theorem getLongYear_four (a b c d : Nat) (ha : a < 10) (hb : b < 10) (hc : c < 10)
    (hd : d < 10) (rest : Str) :
    getLongYear (digitChar a :: digitChar b :: digitChar c :: digitChar d :: rest) =
      some ((((a : Int) * 10 + b) * 10 + c) * 10 + d, rest) := by
  simp [getLongYear, isDigit_digitChar, digitVal_digitChar, ha, hb, hc, hd]

/-- Parsing with `layoutTime` what `layoutTime` rendered gives the time back. -/
theorem parseTime_formatLayoutTime (t : Time) (hv : t.valid) :
    parseTime ' ' (formatLayoutTime t) = some t := by
  obtain ⟨year, month, day, hour, minute, second⟩ := t
  obtain ⟨h1, h2, h3, h4, h5, h6, h7, h8, h9, h10, h11, h12⟩ := hv
  simp only at h1 h2 h3 h4 h5 h6 h7 h8 h9 h10 h11 h12
  have hday : day ≤ 31 := by
    have : daysIn month year ≤ 31 := by
      unfold daysIn
      split
      · omega
      · have hm : month.toNat = 1 ∨ month.toNat = 2 ∨ month.toNat = 3 ∨ month.toNat = 4 ∨
          month.toNat = 5 ∨ month.toNat = 6 ∨ month.toNat = 7 ∨ month.toNat = 8 ∨
          month.toNat = 9 ∨ month.toNat = 10 ∨ month.toNat = 11 ∨ month.toNat = 12 := by omega
        rcases hm with h | h | h | h | h | h | h | h | h | h | h | h <;> rw [h] <;> decide
    omega
  lift year to ℕ using h1
  lift month to ℕ using (by omega)
  lift day to ℕ using (by omega)
  lift hour to ℕ using h7
  lift minute to ℕ using h9
  lift second to ℕ using h11
  have e1 := appendInt_four year (by omega)
  have e2 := appendInt_two month (by omega)
  have e3 := appendInt_two day (by omega)
  have e4 := appendInt_two hour (by omega)
  have e5 := appendInt_two minute (by omega)
  have e6 := appendInt_two second (by omega)
  simp only [formatLayoutTime, formatDate, e1, e2, e3, e4, e5, e6, List.cons_append,
    List.nil_append, parseTime]
  rw [getLongYear_four _ _ _ _ (by omega) (by omega) (by omega) (by omega)]
  have c1 : ('-' : Char) ≠ ' ' := by decide
  have g (a : Nat) (rest : Str) (fixed : Bool) (ha : a < 100) :
      getnum (digitChar (a / 10) :: digitChar (a % 10) :: rest) fixed = some ((a : Int), rest) := by
    rw [getnum_two _ _ (by omega) (by omega)]
    congr 2
    omega
  have hs : digitChar (hour / 10) ≠ ' ' := digitChar_ne_space _ (by omega)
  simp only [skip, c1, if_false, if_true, ↓reduceIte, g _ _ _ (show month < 100 by omega)]
  rw [if_neg (by omega), g _ _ _ (show day < 100 by omega)]
  have hcut : ∀ rest : Str, cutspace (' ' :: digitChar (hour / 10) :: rest) =
      digitChar (hour / 10) :: rest := by
    intro rest
    simp [cutspace, List.dropWhile_cons, hs]
  simp only [ne_eq, not_true_eq_false, if_false, ↓reduceIte, hcut,
    g _ _ _ (show hour < 100 by omega)]
  rw [if_neg (by omega)]
  simp only [↓reduceIte, g _ _ _ (show minute < 100 by omega)]
  rw [if_neg (by omega)]
  simp only [↓reduceIte, g _ _ _ (show second < 100 by omega)]
  rw [if_neg (by omega)]
  simp only [skipFraction, ne_eq, not_true_eq_false, if_false, ↓reduceIte]
  have hy : (((((year / 1000 : ℕ) : Int) * 10 + ((year / 100 % 10 : ℕ) : Int)) * 10
      + ((year / 10 % 10 : ℕ) : Int)) * 10 + ((year % 10 : ℕ) : Int)) = (year : Int) := by
    omega
  rw [hy, if_neg (by omega)]

/-- The first ten characters of a rendered time are its date. -/
theorem take_formatLayoutTime (t : Time) (hv : t.valid) :
    (formatLayoutTime t).take 10 = formatDate t := by
  obtain ⟨year, month, day, hour, minute, second⟩ := t
  obtain ⟨h1, h2, h3, h4, h5, h6, h7, h8, h9, h10, h11, h12⟩ := hv
  simp only at h1 h2 h3 h4 h5 h6 h7 h8 h9 h10 h11 h12
  have hlen : (formatDate ⟨year, month, day, hour, minute, second⟩).length = 10 := by
    have hday : day < 100 := by
      have : daysIn month year ≤ 31 := by
        unfold daysIn
        split
        · omega
        · have hm : month.toNat = 1 ∨ month.toNat = 2 ∨ month.toNat = 3 ∨ month.toNat = 4 ∨
            month.toNat = 5 ∨ month.toNat = 6 ∨ month.toNat = 7 ∨ month.toNat = 8 ∨
            month.toNat = 9 ∨ month.toNat = 10 ∨ month.toNat = 11 ∨ month.toNat = 12 := by omega
          rcases hm with h | h | h | h | h | h | h | h | h | h | h | h <;> rw [h] <;> decide
      omega
    lift year to ℕ using h1
    lift month to ℕ using (by omega)
    lift day to ℕ using (by omega)
    simp [formatDate, appendInt_four year (by omega), appendInt_two month (by omega),
      appendInt_two day (by omega)]
  unfold formatLayoutTime
  rw [List.append_assoc, List.append_assoc, List.take_left' hlen]

/-- Function `strContains` decides the contiguous-sublist relation. -/
theorem strContains_iff (s sub : Str) : strContains s sub = true ↔ sub <:+: s := by
  induction s with
  | nil => simp [strContains, List.isEmpty_iff]
  | cons c s ih =>
    simp only [strContains, Bool.or_eq_true, ih, List.infix_cons_iff, List.isPrefixOf_iff_prefix]

/-- Function `strHasSuffix` decides the suffix relation. -/
theorem strHasSuffix_iff (s suffix : Str) : strHasSuffix s suffix = true ↔ suffix <:+ s := by
  simp [strHasSuffix]

/-- From the initial state the loop ends with the wrapped error sum. -/
theorem loop_initial_range (env : Env) (dir : Str) (files : List Str) (s : LoopState)
    (h : loopFiles env dir files ⟨0, [], []⟩ = .ok s) :
    -2 ^ 63 ≤ s.errorTime ∧ s.errorTime < 2 ^ 63 ∧ s.errorTime = wrapInt (errorSum env dir files) := by
  obtain ⟨_, _, _, _, h5, h6⟩ := loopFiles_ok env dir files _ _ h
  have hr := h6 (by norm_num)
  refine ⟨hr.1, hr.2, ?_⟩
  rw [← wrapInt_of_range _ hr.1 hr.2, h5]
  simp

/-- The three times of every returned report. -/
theorem GenerateReport_times (env : Env) (st et dir : Str) (r : RecordReport)
    (h : GenerateReport env st et dir = .ok r) :
    ∃ files, getRecordingFiles env st et dir = .ok files ∧
      r.result.totalTime = 86400 ∧
      r.result.errorTime = wrapInt (errorSum env dir files) ∧
      r.result.recordTime = wrapInt (86400 - errorSum env dir files) := by
  obtain ⟨files, s, hf, hl, ht, hrec, herr, _⟩ := GenerateReport_ok env st et dir r h
  obtain ⟨h1, h2, h3⟩ := loop_initial_range env dir files s hl
  refine ⟨files, hf, ht, ?_, ?_⟩
  · rw [herr, wrapInt_sub_right, ← h3]
    have : (86400 : Int) - (86400 - s.errorTime) = s.errorTime := by ring
    rw [this, wrapInt_of_range _ h1 h2]
  · rw [hrec, h3, wrapInt_sub_right]

/-- Durations of the error files, as a filter of all durations. -/
theorem map_duration_errorFiles (env : Env) (dir : Str) (files : List Str) :
    (errorFiles env dir files).map (durationOf env dir) =
      (files.map (durationOf env dir)).filter (fun d => d < 300) := by
  unfold errorFiles
  induction files with
  | nil => rfl
  | cons f rest ih =>
    by_cases h : durationOf env dir f < 300 <;> simp [List.filter_cons, h, ih]

/-- The lists and counts of every returned report. -/
theorem GenerateReport_lists (env : Env) (st et dir : Str) (r : RecordReport)
    (h : GenerateReport env st et dir = .ok r) :
    ∃ files, getRecordingFiles env st et dir = .ok files ∧
      (∀ f ∈ files, getVideoDuration (env.probe (fileLoc dir f)) = .ok (durationOf env dir f)) ∧
      (∀ f ∈ files, durationOf env dir f < 300 → ∃ t, parseTime 'T' (splitFirst f) = some t) ∧
      r.result.recordingFile =
        files.map (fun f => (⟨durationOf env dir f, f⟩ : RecordingFile)) ∧
      r.result.error = (errorFiles env dir files).map (detailOf env dir) ∧
      r.result.totalRecording = files.length ∧
      r.result.totalError = (errorFiles env dir files).length := by
  obtain ⟨files, s, hf, hl, _, _, _, herr, hrf, htr, hte, _⟩ := GenerateReport_ok env st et dir r h
  obtain ⟨h1, h2, h3, h4, _⟩ := loopFiles_ok env dir files _ _ hl
  refine ⟨files, hf, h1, h2, ?_, ?_, htr, ?_⟩
  · rw [hrf, h3]; rfl
  · rw [herr, h4]; rfl
  · rw [hte, h4]; simp

/-- A report is returned when every probe succeeds and every error file has a parsable name. -/
theorem GenerateReport_returns (env : Env) (st et dir : Str) (files : List Str)
    (hf : getRecordingFiles env st et dir = .ok files)
    (hprobe : ∀ f ∈ files, ∃ d, getVideoDuration (env.probe (fileLoc dir f)) = .ok d)
    (hparse : ∀ f ∈ files, durationOf env dir f < 300 →
      ∃ t, parseTime 'T' (splitFirst f) = some t) :
    ∃ r, GenerateReport env st et dir = .ok r := by
  obtain ⟨s, hs⟩ := loopFiles_succeeds env dir files hprobe hparse ⟨0, [], []⟩
  unfold GenerateReport
  rw [hf]
  simp only [hs]
  exact ⟨_, rfl⟩

/-- Result of `getRecordingFiles` on a readable directory. -/
theorem getRecordingFiles_of_listing (env : Env) (st et dir : Str) (listing : List Str)
    (hdir : env.readDir dir = some listing) :
    getRecordingFiles env st et dir =
      .ok (listing.filter (selects (formatDate ((parseTime ' ' st).getD zeroTime)))) := by
  unfold getRecordingFiles
  rw [hdir]
  simp only
  congr 1
  apply List.filter_congr
  intro name _
  unfold selects
  rw [Bool.eq_iff_iff]
  simp only [Bool.and_eq_true, strContains_iff, strHasSuffix_iff, decide_eq_true_eq]

/-- The error entry of the scenario recording when it is probed at 120 seconds. -/
theorem detailOf_scenario (env : Env) (dir : Str)
    (hprobe : getVideoDuration (env.probe (fileLoc dir scenarioName)) = .ok 120) :
    detailOf env dir scenarioName = scenarioDetail := by
  have hdur : durationOf env dir scenarioName = 120 := by simp [durationOf, hprobe]
  have hp : parseTime 'T' (splitFirst scenarioName) = some ⟨2024, 1, 9, 10, 0, 0⟩ := by decide
  unfold detailOf
  rw [hdur, hp]
  decide

/-- With no negative duration, one error duration is at most the error sum. -/
theorem le_errorSum (env : Env) (dir : Str) (files : List Str) (f : Str)
    (hnn : ∀ g ∈ files, 0 ≤ durationOf env dir g)
    (hmem : f ∈ files) (hlt : durationOf env dir f < 300) :
    durationOf env dir f ≤ errorSum env dir files := by
  unfold errorSum
  apply List.single_le_sum
  · intro x hx
    obtain ⟨g, hg, rfl⟩ := List.mem_map.mp hx
    exact hnn g (List.mem_filter.mp hg).1
  · apply List.mem_map_of_mem
    unfold errorFiles
    exact List.mem_filter.mpr ⟨hmem, by simpa using hlt⟩

/-! The claims -/

/-- Claim C1, refuted as stated: with one recording probed at 1024 - 2^63 seconds
the report has error_time = 1024 - 2^63 and record_time = 85376 - 2^63, so
error_time + record_time is 86400 - 2^64 and not total_time. -/
theorem time_identity_overflow_counterexample :
    ∃ r, GenerateReport overflowEnv mainStart mainStop mainDir = .ok r ∧
      r.result.errorTime = -9223372036854774784 ∧
      r.result.recordTime = -9223372036854690432 ∧
      r.result.errorTime + r.result.recordTime ≠ r.result.totalTime :=
  ⟨_, rfl, by decide, by decide, by decide⟩

/-- Claim C1, as amended: every returned report has total_time = 86400 and
satisfies error_time + record_time = total_time in the wrapping arithmetic of
Go's `int`; as an equation between exact integers it holds exactly when
error_time is above 86400 - 2^63, so for every error_time that is not negative. -/
theorem time_identity (env : Env) (st et dir : Str) (r : RecordReport)
    (h : GenerateReport env st et dir = .ok r) :
    r.result.totalTime = 86400 ∧
    wrapInt (r.result.errorTime + r.result.recordTime) = r.result.totalTime ∧
    (r.result.errorTime + r.result.recordTime = r.result.totalTime ↔
      86400 - 2 ^ 63 < r.result.errorTime) := by
  obtain ⟨files, _, ht, he, hrec⟩ := GenerateReport_times env st et dir r h
  rw [ht, he, hrec]
  generalize errorSum env dir files = x
  unfold wrapInt
  refine ⟨rfl, ?_, ?_⟩ <;> omega

/-- Claim C1, as amended, on the scenario directory: the report exists, its
error_time is above 86400 - 2^63 and the three times add up exactly. -/
theorem time_identity_witness :
    ∃ r, GenerateReport scenarioEnv mainStart mainStop mainDir = .ok r ∧
      86400 - 2 ^ 63 < r.result.errorTime ∧
      r.result.totalTime = 86400 ∧
      r.result.errorTime + r.result.recordTime = r.result.totalTime :=
  ⟨_, rfl, by decide,
    (time_identity scenarioEnv mainStart mainStop mainDir _ rfl).1,
    (time_identity scenarioEnv mainStart mainStop mainDir _ rfl).2.2.mpr (by decide)⟩

/-- Claim C2, refuted as stated: with two recordings probed at -2^62 and
-2^62 - 1024 seconds, both below 300, error_time is 2^63 - 1024 and not their
sum -2^63 - 1024. -/
theorem error_time_wraps_counterexample :
    ∃ r, GenerateReport wrapSumEnv mainStart mainStop mainDir = .ok r ∧
      r.result.recordingFile =
        [⟨-4611686018427387904, scenarioName⟩, ⟨-4611686018427388928, otherName⟩] ∧
      r.result.errorTime = 9223372036854774784 ∧
      r.result.errorTime ≠ -4611686018427387904 + -4611686018427388928 :=
  ⟨_, rfl, by decide, by decide, by decide⟩

/-- Claim C2, as amended: in every returned report error_time is the sum of the
durations below 300 of the selected files reduced to the range of Go's `int`,
and record_time is 86400 minus that sum reduced likewise; whenever the exact
sum lies above 86400 - 2^63 and below 2^63, error_time is the exact sum and
record_time is exactly 86400 minus it. -/
theorem error_time_is_error_sum (env : Env) (st et dir : Str) (files : List Str)
    (r : RecordReport)
    (hf : getRecordingFiles env st et dir = .ok files)
    (h : GenerateReport env st et dir = .ok r) :
    errorSum env dir files =
      ((r.result.recordingFile.map (fun x => x.duration)).filter (fun d => d < 300)).sum ∧
    r.result.errorTime = wrapInt (errorSum env dir files) ∧
    r.result.recordTime = wrapInt (86400 - errorSum env dir files) ∧
    (86400 - 2 ^ 63 < errorSum env dir files → errorSum env dir files < 2 ^ 63 →
      r.result.errorTime = errorSum env dir files ∧
      r.result.recordTime = 86400 - errorSum env dir files) := by
  obtain ⟨files1, hf1, _, he, hrec⟩ := GenerateReport_times env st et dir r h
  obtain ⟨files2, s, hf2, hl, _, _, _, _, hrf, _⟩ := GenerateReport_ok env st et dir r h
  rw [hf] at hf1 hf2
  cases hf1
  cases hf2
  obtain ⟨_, _, h3, _⟩ := loopFiles_ok env dir files _ _ hl
  refine ⟨?_, he, hrec, ?_⟩
  · rw [hrf, h3]
    simp only [List.nil_append, List.map_map]
    unfold errorSum
    rw [map_duration_errorFiles]
    rfl
  · intro h1 h2
    rw [he, hrec]
    unfold wrapInt
    constructor <;> omega

/-- Claim C2, as amended, on the scenario directory: one file is selected, the
error sum is 120, and the report has error_time 120 and record_time 86400 - 120. -/
theorem error_time_is_error_sum_witness :
    getRecordingFiles scenarioEnv mainStart mainStop mainDir = .ok [scenarioName] ∧
    errorSum scenarioEnv mainDir [scenarioName] = 120 ∧
    ∃ r, GenerateReport scenarioEnv mainStart mainStop mainDir = .ok r ∧
      r.result.errorTime = errorSum scenarioEnv mainDir [scenarioName] ∧
      r.result.recordTime = 86400 - errorSum scenarioEnv mainDir [scenarioName] :=
  ⟨rfl, by decide, _, rfl,
    (error_time_is_error_sum scenarioEnv mainStart mainStop mainDir [scenarioName] _
      rfl rfl).2.2.2 (by decide) (by decide)⟩

/-- Claim C3: in every returned report no entry of the error list has a duration
of 300 or more, and a file whose measured duration is 300 or more is the
filename of no entry of the error list. -/
theorem error_list_below_threshold (env : Env) (st et dir : Str) (r : RecordReport)
    (h : GenerateReport env st et dir = .ok r) :
    (∀ e ∈ r.result.error, ¬ (300 ≤ e.duration)) ∧
    (∀ f d, getVideoDuration (env.probe (fileLoc dir f)) = .ok d → 300 ≤ d →
      ∀ e ∈ r.result.error, e.filename ≠ f) := by
  obtain ⟨files, _, _, _, _, herr, _⟩ := GenerateReport_lists env st et dir r h
  have key : ∀ e ∈ r.result.error, durationOf env dir e.filename < 300 ∧
      e.duration = durationOf env dir e.filename := by
    intro e he
    rw [herr] at he
    obtain ⟨g, hg, rfl⟩ := List.mem_map.mp he
    have hg2 : durationOf env dir g < 300 := by
      have := (List.mem_filter.mp hg).2
      simpa using this
    exact ⟨hg2, rfl⟩
  constructor
  · intro e he
    obtain ⟨h1, h2⟩ := key e he
    omega
  · intro f d hd h300 e he hname
    obtain ⟨h1, _⟩ := key e he
    rw [hname] at h1
    have : durationOf env dir f = d := by simp [durationOf, hd]
    omega

/-- Claim C3 on the scenario directory: the report exists, its error list is not
empty and none of its entries reaches 300 seconds. -/
theorem error_list_below_threshold_witness :
    ∃ r, GenerateReport scenarioEnv mainStart mainStop mainDir = .ok r ∧
      r.result.error ≠ [] ∧ ∀ e ∈ r.result.error, ¬ (300 ≤ e.duration) :=
  ⟨_, rfl, by decide,
    (error_list_below_threshold scenarioEnv mainStart mainStop mainDir _ rfl).1⟩

/-- Claim C4: in every returned report, a selected file whose measured duration d
is below 300 has an entry with its filename and duration d in the error list
and an entry with the same filename and duration in the recording_file list. -/
theorem short_file_in_both_lists (env : Env) (st et dir : Str) (files : List Str)
    (r : RecordReport) (f : Str) (d : Int)
    (hf : getRecordingFiles env st et dir = .ok files)
    (h : GenerateReport env st et dir = .ok r)
    (hmem : f ∈ files)
    (hd : getVideoDuration (env.probe (fileLoc dir f)) = .ok d)
    (hlt : d < 300) :
    (∃ e ∈ r.result.error, e.filename = f ∧ e.duration = d) ∧
    (∃ x ∈ r.result.recordingFile, x.filename = f ∧ x.duration = d) := by
  obtain ⟨files1, hf1, _, _, hrf, herr, _⟩ := GenerateReport_lists env st et dir r h
  rw [hf] at hf1
  cases hf1
  have hdur : durationOf env dir f = d := by simp [durationOf, hd]
  constructor
  · refine ⟨detailOf env dir f, ?_, rfl, hdur⟩
    rw [herr]
    apply List.mem_map_of_mem
    unfold errorFiles
    apply List.mem_filter.mpr
    exact ⟨hmem, by simpa [hdur] using hlt⟩
  · refine ⟨⟨durationOf env dir f, f⟩, ?_, rfl, hdur⟩
    rw [hrf]
    exact List.mem_map_of_mem _ hmem

/-- Claim C4 on the scenario directory: the recording is selected and probed at
120 seconds, and the report lists it with duration 120 in both lists. -/
theorem short_file_in_both_lists_witness :
    getRecordingFiles scenarioEnv mainStart mainStop mainDir = .ok [scenarioName] ∧
    getVideoDuration (scenarioEnv.probe (fileLoc mainDir scenarioName)) = .ok 120 ∧
    ∃ r, GenerateReport scenarioEnv mainStart mainStop mainDir = .ok r ∧
      (∃ e ∈ r.result.error, e.filename = scenarioName ∧ e.duration = 120) ∧
      (∃ x ∈ r.result.recordingFile, x.filename = scenarioName ∧ x.duration = 120) :=
  ⟨rfl, rfl, _, rfl,
    short_file_in_both_lists scenarioEnv mainStart mainStop mainDir [scenarioName] _
      scenarioName 120 rfl rfl (List.mem_singleton.mpr rfl) rfl (by decide)⟩

/-- Claim C5, the code at a failing input: for the recording that starts at
10:00:30 and lasts 120 seconds the error entry has start_time 10-00-30 and
end_time 10-02-00, whereas the start time plus 120 seconds is 10-02-30. Line 145
passes the duration as the seconds field and drops the seconds of the start. -/
theorem end_time_ignores_start_seconds :
    ∃ r, GenerateReport secondsEnv mainStart mainStop mainDir = .ok r ∧
      r.result.error = [⟨120, secondsName,
        ⟨"2024-01-09 10-02-00".toList, "2024-01-09 10-00-30".toList⟩⟩] ∧
      parseTime 'T' (splitFirst secondsName) = some ⟨2024, 1, 9, 10, 0, 30⟩ ∧
      formatLayoutTime (Date 2024 1 9 10 0 (30 + 120)) = "2024-01-09 10-02-30".toList :=
  ⟨_, rfl, by decide, by decide, by decide⟩

/-- Claim C6, refuted as stated: for a directory without a recording of the day
the report has total_recording = 0, error_time = 0 and record_time = 86400, so
neither error_time = total_time nor record_time = 0 holds. -/
theorem no_files_counterexample :
    ∃ r, GenerateReport emptyEnv mainStart mainStop mainDir = .ok r ∧
      r.result.totalRecording = 0 ∧
      r.result.errorTime ≠ r.result.totalTime ∧ r.result.recordTime ≠ 0 :=
  ⟨_, rfl, by decide, by decide, by decide⟩

/-- Claim C6, as amended: when no entry of the listing is selected,
`GenerateReport` returns a report with total_recording = 0, total_error = 0,
error_time = 0 and record_time = total_time = 86400 (error_percentage 0 and
record_percentage 100, both lists empty). -/
theorem no_files_report (env : Env) (st et dir : Str)
    (hf : getRecordingFiles env st et dir = .ok []) :
    ∃ r, GenerateReport env st et dir = .ok r ∧
      r.result.totalRecording = 0 ∧ r.result.totalError = 0 ∧
      r.result.errorTime = 0 ∧ r.result.recordTime = r.result.totalTime ∧
      r.result.totalTime = 86400 ∧
      r.result.errorPercentage = 0 ∧ r.result.recordPercentage = 100 ∧
      r.result.error = [] ∧ r.result.recordingFile = [] := by
  unfold GenerateReport
  rw [hf]
  simp only [loopFiles]
  refine ⟨_, rfl, ?_⟩
  dsimp only
  refine ⟨rfl, rfl, by decide, by decide, by decide, ?_, ?_, rfl, rfl⟩
  · norm_num [wrapInt]
  · norm_num [wrapInt]

/-- Claim C6, as amended, on a directory that holds a text file and a recording
of the day before: nothing is selected and the report is the one stated. -/
theorem no_files_report_witness :
    getRecordingFiles emptyEnv mainStart mainStop mainDir = .ok [] ∧
    ∃ r, GenerateReport emptyEnv mainStart mainStop mainDir = .ok r ∧
      r.result.totalRecording = 0 ∧ r.result.totalError = 0 ∧
      r.result.errorTime = 0 ∧ r.result.recordTime = r.result.totalTime ∧
      r.result.totalTime = 86400 ∧
      r.result.errorPercentage = 0 ∧ r.result.recordPercentage = 100 ∧
      r.result.error = [] ∧ r.result.recordingFile = [] :=
  ⟨rfl, no_files_report emptyEnv mainStart mainStop mainDir rfl⟩

/-- Claim C7, refuted as stated: when the directory also holds a recording probed
at -500 seconds, the report has the expected error entry for the scenario
recording but its error_time is -380, which is not at least 120. -/
theorem scenario_error_time_counterexample :
    ∃ r, GenerateReport negativeEnv mainStart mainStop mainDir = .ok r ∧
      scenarioDetail ∈ r.result.error ∧
      r.result.errorTime = -380 ∧
      ¬ (120 ≤ r.result.errorTime) :=
  ⟨_, rfl, by decide, by decide, by decide⟩

/-- Claim C7, as amended: for the start date 2024-01-09 00-00-00 and a directory
that contains 2024-01-09T10-00-00.001.mp4 probed at 120 seconds, every returned
report has the error entry with duration 120, start_time 2024-01-09 10-00-00
and end_time 2024-01-09 10-02-00, and lists the file with duration 120 in
recording_file; its error_time is at least 120 provided no selected file has a
negative measured duration and the exact error sum is below 2^63; when the
file is the only selected one, a report is returned, that entry is the single
error entry and error_time is 120. -/
theorem scenario_report (env : Env) (et dir : Str) (listing files : List Str)
    (hdir : env.readDir dir = some listing)
    (hmem : scenarioName ∈ listing)
    (hf : getRecordingFiles env mainStart et dir = .ok files)
    (hprobe : getVideoDuration (env.probe (fileLoc dir scenarioName)) = .ok 120) :
    (∀ r, GenerateReport env mainStart et dir = .ok r →
      scenarioDetail ∈ r.result.error ∧
      (⟨120, scenarioName⟩ : RecordingFile) ∈ r.result.recordingFile ∧
      ((∀ f ∈ files, 0 ≤ durationOf env dir f) → errorSum env dir files < 2 ^ 63 →
        120 ≤ r.result.errorTime)) ∧
    (files = [scenarioName] →
      ∃ r, GenerateReport env mainStart et dir = .ok r ∧
        r.result.error = [scenarioDetail] ∧ r.result.errorTime = 120 ∧
        r.result.recordingFile = [⟨120, scenarioName⟩]) := by
  have hdur : durationOf env dir scenarioName = 120 := by simp [durationOf, hprobe]
  have hsel : scenarioName ∈ files := by
    have h1 := getRecordingFiles_of_listing env mainStart et dir listing hdir
    rw [hf] at h1
    cases h1
    exact List.mem_filter.mpr ⟨hmem, by decide⟩
  have herrmem : scenarioName ∈ errorFiles env dir files := by
    unfold errorFiles
    exact List.mem_filter.mpr ⟨hsel, by simp [hdur]⟩
  have general : ∀ r, GenerateReport env mainStart et dir = .ok r →
      scenarioDetail ∈ r.result.error ∧
      (⟨120, scenarioName⟩ : RecordingFile) ∈ r.result.recordingFile ∧
      ((∀ f ∈ files, 0 ≤ durationOf env dir f) → errorSum env dir files < 2 ^ 63 →
        120 ≤ r.result.errorTime) := by
    intro r h
    obtain ⟨files1, hf1, _, _, hrf, herr, _⟩ := GenerateReport_lists env mainStart et dir r h
    obtain ⟨files2, hf2, _, he, _⟩ := GenerateReport_times env mainStart et dir r h
    rw [hf] at hf1 hf2
    cases hf1
    cases hf2
    refine ⟨?_, ?_, ?_⟩
    · rw [herr, ← detailOf_scenario env dir hprobe]
      exact List.mem_map_of_mem _ herrmem
    · rw [hrf, ← hdur]
      exact List.mem_map_of_mem (fun f => (⟨durationOf env dir f, f⟩ : RecordingFile)) hsel
    · intro hnn hsum
      have hle := le_errorSum env dir files scenarioName hnn hsel (by rw [hdur]; decide)
      rw [hdur] at hle
      rw [he, wrapInt_of_range _ (by omega) hsum]
      exact hle
  refine ⟨general, ?_⟩
  intro hone
  subst hone
  obtain ⟨r, hr⟩ := GenerateReport_returns env mainStart et dir [scenarioName] hf
    (fun f hfm => by
      rw [List.mem_singleton.mp hfm]
      exact ⟨120, hprobe⟩)
    (fun f hfm _ => by
      rw [List.mem_singleton.mp hfm]
      exact ⟨⟨2024, 1, 9, 10, 0, 0⟩, by decide⟩)
  obtain ⟨files1, hf1, _, _, hrf, herr, _⟩ := GenerateReport_lists env mainStart et dir r hr
  obtain ⟨files2, hf2, _, he, _⟩ := GenerateReport_times env mainStart et dir r hr
  rw [hf] at hf1 hf2
  cases hf1
  cases hf2
  have hef : errorFiles env dir [scenarioName] = [scenarioName] := by
    simp [errorFiles, hdur]
  refine ⟨r, hr, ?_, ?_, ?_⟩
  · rw [herr, hef, List.map_singleton, detailOf_scenario env dir hprobe]
  · rw [he]
    simp only [errorSum, hef, List.map_singleton, hdur, List.sum_singleton]
    decide
  · rw [hrf, List.map_singleton, hdur]

/-- Claim C7, as amended, on the scenario directory: the listing holds the
recording, it is the only selected file and is probed at 120 seconds, and the
report has the single expected error entry, error_time 120 and the file in
recording_file. -/
theorem scenario_report_witness :
    scenarioEnv.readDir mainDir = some [scenarioName] ∧
    getRecordingFiles scenarioEnv mainStart mainStop mainDir = .ok [scenarioName] ∧
    getVideoDuration (scenarioEnv.probe (fileLoc mainDir scenarioName)) = .ok 120 ∧
    ∃ r, GenerateReport scenarioEnv mainStart mainStop mainDir = .ok r ∧
      r.result.error = [scenarioDetail] ∧ r.result.errorTime = 120 ∧
      r.result.recordingFile = [⟨120, scenarioName⟩] :=
  ⟨rfl, rfl, rfl,
    (scenario_report scenarioEnv mainStop mainDir [scenarioName] [scenarioName] rfl
      (List.mem_singleton.mpr rfl) rfl rfl).2 rfl⟩

/-- Claim C8, refuted as stated: with one recording probed at 1024 - 2^63 seconds
the two percentages of the report do not add up to 100. -/
theorem percentages_overflow_counterexample :
    ∃ r, GenerateReport overflowEnv mainStart mainStop mainDir = .ok r ∧
      r.result.errorPercentage + r.result.recordPercentage ≠ 100 := by
  refine ⟨_, rfl, ?_⟩
  simp only [ne_eq]
  norm_num [wrapInt, getVideoDuration]

/-- Claim C8, as amended: in every returned report error_percentage is
error_time / total_time * 100 and record_percentage is record_time / total_time
* 100 (over the rationals), and the two add up to 100 exactly when error_time
is above 86400 - 2^63, so for every error_time that is not negative. -/
theorem percentages_sum (env : Env) (st et dir : Str) (r : RecordReport)
    (h : GenerateReport env st et dir = .ok r) :
    r.result.errorPercentage = (r.result.errorTime : ℚ) / (r.result.totalTime : ℚ) * 100 ∧
    r.result.recordPercentage = (r.result.recordTime : ℚ) / (r.result.totalTime : ℚ) * 100 ∧
    (r.result.errorPercentage + r.result.recordPercentage = 100 ↔
      86400 - 2 ^ 63 < r.result.errorTime) := by
  obtain ⟨files, _, ht, he, hrec⟩ := GenerateReport_times env st et dir r h
  obtain ⟨_, _, _, _, _, _, _, _, _, _, _, hep, hrp, _⟩ := GenerateReport_ok env st et dir r h
  refine ⟨hep, hrp, ?_⟩
  rw [hep, hrp, ht]
  have hsum : (r.result.errorTime : ℚ) / ((86400 : Int) : ℚ) * 100
      + (r.result.recordTime : ℚ) / ((86400 : Int) : ℚ) * 100 = 100 ↔
      r.result.errorTime + r.result.recordTime = 86400 := by
    constructor
    · intro hq
      have h2 : ((r.result.errorTime + r.result.recordTime : Int) : ℚ) = ((86400 : Int) : ℚ) := by
        push_cast
        push_cast at hq
        linarith
      exact_mod_cast h2
    · intro hz
      have h2 : ((r.result.errorTime + r.result.recordTime : Int) : ℚ) = ((86400 : Int) : ℚ) := by
        rw [hz]
      push_cast at h2
      push_cast
      linarith
  rw [hsum, he, hrec]
  generalize errorSum env dir files = x
  unfold wrapInt
  omega

/-- Claim C8, as amended, on the scenario directory: error_time is above
86400 - 2^63 and the percentages add up to 100. -/
theorem percentages_sum_witness :
    ∃ r, GenerateReport scenarioEnv mainStart mainStop mainDir = .ok r ∧
      86400 - 2 ^ 63 < r.result.errorTime ∧
      r.result.errorPercentage + r.result.recordPercentage = 100 :=
  ⟨_, rfl, by decide,
    (percentages_sum scenarioEnv mainStart mainStop mainDir _ rfl).2.2.mpr (by decide)⟩

/-- Claim C9: for a start date that renders a valid civil time in the layout
YYYY-MM-DD HH-MM-SS and a readable directory, `getRecordingFiles` returns the
listing filtered, in listing order, by: the name contains the first ten
characters of the start date (its calendar date) and ends with .mp4; in every
returned report the filenames of recording_file are that list, and
total_recording and the length of recording_file are its length. -/
theorem getRecordingFiles_selects (env : Env) (st et dir : Str) (listing : List Str)
    (t : Time) (hv : t.valid) (hst : st = formatLayoutTime t)
    (hdir : env.readDir dir = some listing) :
    st.take 10 = formatDate t ∧
    getRecordingFiles env st et dir = .ok (listing.filter (fun name =>
      decide (st.take 10 <:+: name) && decide (".mp4".toList <:+ name))) ∧
    ∀ r, GenerateReport env st et dir = .ok r →
      r.result.recordingFile.map (fun x => x.filename) = listing.filter (fun name =>
        decide (st.take 10 <:+: name) && decide (".mp4".toList <:+ name)) ∧
      r.result.totalRecording = ((listing.filter (fun name =>
        decide (st.take 10 <:+: name) && decide (".mp4".toList <:+ name))).length : Int) ∧
      r.result.recordingFile.length = (listing.filter (fun name =>
        decide (st.take 10 <:+: name) && decide (".mp4".toList <:+ name))).length := by
  have htake : st.take 10 = formatDate t := by rw [hst]; exact take_formatLayoutTime t hv
  have hparse : parseTime ' ' st = some t := by rw [hst]; exact parseTime_formatLayoutTime t hv
  have hsel := getRecordingFiles_of_listing env st et dir listing hdir
  rw [hparse, Option.getD_some, ← htake] at hsel
  refine ⟨htake, hsel, ?_⟩
  intro r h
  obtain ⟨files, hf, _, _, hrf, _, htr, _⟩ := GenerateReport_lists env st et dir r h
  rw [hsel] at hf
  cases hf
  have hnames : r.result.recordingFile.map (fun x => x.filename) =
      listing.filter (selects (st.take 10)) := by
    rw [hrf, List.map_map]
    exact List.map_id _
  refine ⟨hnames, htr, ?_⟩
  change r.result.recordingFile.length = (listing.filter (selects (st.take 10))).length
  rw [← hnames, List.length_map]

/-- Claim C9 on a directory of four entries: the start date of `main` is the
rendering of 2024-01-09 00:00:00, its first ten characters are 2024-01-09, of
the four entries only the scenario recording is selected, and a report is
returned whose recording_file names are the selected entries and whose
total_recording and recording_file length are both their number, 1. -/
theorem getRecordingFiles_selects_witness :
    Time.valid ⟨2024, 1, 9, 0, 0, 0⟩ ∧
    mainStart = formatLayoutTime ⟨2024, 1, 9, 0, 0, 0⟩ ∧
    mixedEnv.readDir mainDir =
      some ["notes.txt".toList, "2024-01-08T10-00-00.001.mp4".toList,
        scenarioName, "2024-01-09T12-00-00.001.avi".toList] ∧
    mainStart.take 10 = "2024-01-09".toList ∧
    getRecordingFiles mixedEnv mainStart mainStop mainDir = .ok [scenarioName] ∧
    getRecordingFiles mixedEnv mainStart mainStop mainDir =
      .ok (["notes.txt".toList, "2024-01-08T10-00-00.001.mp4".toList,
        scenarioName, "2024-01-09T12-00-00.001.avi".toList].filter (fun name =>
          decide (mainStart.take 10 <:+: name) && decide (".mp4".toList <:+ name))) ∧
    ∃ r, GenerateReport mixedEnv mainStart mainStop mainDir = .ok r ∧
      r.result.totalRecording = 1 ∧ r.result.recordingFile.length = 1 ∧
      r.result.recordingFile = [⟨120, scenarioName⟩] ∧
      (r.result.recordingFile.map (fun x => x.filename) =
        ["notes.txt".toList, "2024-01-08T10-00-00.001.mp4".toList,
          scenarioName, "2024-01-09T12-00-00.001.avi".toList].filter (fun name =>
            decide (mainStart.take 10 <:+: name) && decide (".mp4".toList <:+ name)) ∧
      r.result.totalRecording =
        ((["notes.txt".toList, "2024-01-08T10-00-00.001.mp4".toList,
          scenarioName, "2024-01-09T12-00-00.001.avi".toList].filter (fun name =>
            decide (mainStart.take 10 <:+: name) &&
              decide (".mp4".toList <:+ name))).length : Int) ∧
      r.result.recordingFile.length =
        (["notes.txt".toList, "2024-01-08T10-00-00.001.mp4".toList,
          scenarioName, "2024-01-09T12-00-00.001.avi".toList].filter (fun name =>
            decide (mainStart.take 10 <:+: name) &&
              decide (".mp4".toList <:+ name))).length) :=
  ⟨by decide, by decide, rfl, by decide, rfl,
    (getRecordingFiles_selects mixedEnv mainStart mainStop mainDir _ ⟨2024, 1, 9, 0, 0, 0⟩
      (by decide) (by decide) rfl).2.1,
    _, rfl, by decide, by decide, by decide,
    (getRecordingFiles_selects mixedEnv mainStart mainStop mainDir _ ⟨2024, 1, 9, 0, 0, 0⟩
      (by decide) (by decide) rfl).2.2 _ rfl⟩

/-- Claim C10: when for one selected file the probe process fails, or its trimmed
output is not empty and does not parse as a number, `GenerateReport` ends in
`log.Fatal` and returns no report, whatever the other files are. -/
theorem probe_failure_aborts (env : Env) (st et dir : Str) (files : List Str) (f : Str)
    (hf : getRecordingFiles env st et dir = .ok files)
    (hmem : f ∈ files)
    (hfail : (env.probe (fileLoc dir f)).execOk = false ∨
      ((env.probe (fileLoc dir f)).trimmed ≠ [] ∧ (env.probe (fileLoc dir f)).parsed = none)) :
    (∃ e, GenerateReport env st et dir = .error e) ∧
    ∀ r, GenerateReport env st et dir ≠ .ok r := by
  have hbad : getVideoDuration (env.probe (fileLoc dir f)) = .error .probe := by
    unfold getVideoDuration
    rcases hfail with h | ⟨h1, h2⟩
    · simp [h]
    · by_cases hx : (env.probe (fileLoc dir f)).execOk = true
      · simp [hx, h1, h2]
      · simp [hx]
  have hno : ∀ r, GenerateReport env st et dir ≠ .ok r := by
    intro r h
    obtain ⟨files1, hf1, hp, _⟩ := GenerateReport_lists env st et dir r h
    rw [hf] at hf1
    cases hf1
    have := hp f hmem
    rw [hbad] at this
    cases this
  refine ⟨?_, hno⟩
  cases hg : GenerateReport env st et dir with
  | error e => exact ⟨e, rfl⟩
  | ok r => exact absurd hg (hno r)

/-- Claim C10 on the scenario directory when the probe prints N/A: the file is
selected, the output is not empty and does not parse, and the run is fatal. -/
theorem probe_failure_aborts_witness :
    getRecordingFiles unprobedEnv mainStart mainStop mainDir = .ok [scenarioName] ∧
    (unprobedEnv.probe (fileLoc mainDir scenarioName)).trimmed ≠ [] ∧
    (unprobedEnv.probe (fileLoc mainDir scenarioName)).parsed = none ∧
    ∃ e, GenerateReport unprobedEnv mainStart mainStop mainDir = .error e :=
  ⟨rfl, by decide, rfl,
    (probe_failure_aborts unprobedEnv mainStart mainStop mainDir [scenarioName] scenarioName
      rfl (List.mem_singleton.mpr rfl) (Or.inr ⟨by decide, rfl⟩)).1⟩

end RecordVideo
